import Mathlib

/-!
Verification of the location-based audio trigger engine of the
LocationSoundWalk application.

The development shallowly embeds the engine (`LocationBasedAudioManager`),
its geolocation helpers (`GeolocationUtils`) and the relevant slice of the
audio layer (`AudioService`) as pure Lean functions over an explicit state
type.  Side effects (play/stop calls on the audio player, callback
invocations, scheduled cooldown removals, position-source subscriptions)
are recorded in an event trace returned alongside the new state.

The floating-point distance computation is treated in two ways:

* the trigger engine is parameterised over an arbitrary distance function
  `dist : ℚ → ℚ → ℚ → ℚ → ℚ` standing for
  `GeolocationUtils.calculateDistance`, since none of the engine-level
  properties depend on the particular distance formula; and
* the Haversine formula itself is embedded over the real numbers in order
  to prove its algebraic properties (zero at identical points, symmetry).

JavaScript number comparisons involving `NaN` and the infinities, which
matter for `isValidCoordinates`, are modelled by the dedicated type
`JSNum`.
-/

namespace SoundWalk

/-- Model of a JavaScript `number` as used in comparison positions:
either `NaN`, one of the two infinities, or a finite value (modelled as a
rational). -/
inductive JSNum where
  | nan : JSNum
  | posInf : JSNum
  | negInf : JSNum
  | num : ℚ → JSNum
deriving DecidableEq, Repr

/-- JavaScript semantics of the comparison `a <= b`: any comparison with
`NaN` is false; `-Infinity <= x` and `x <= Infinity` hold for non-`NaN`
`x`; finite values compare as rationals. -/
def JSNum.jsLe : JSNum → JSNum → Bool
  | .nan, _ => false
  | _, .nan => false
  | .negInf, _ => true
  | _, .posInf => true
  | .posInf, _ => false
  | .num a, .num b => decide (a ≤ b)
  | .num _, .negInf => false

/-- JavaScript semantics of the comparison `a >= b`. -/
def JSNum.jsGe (a b : JSNum) : Bool := JSNum.jsLe b a

/-- Embedding of `GeolocationUtils.isValidCoordinates`:
`lat >= -90 && lat <= 90 && lng >= -180 && lng <= 180` under JavaScript
comparison semantics. -/
def isValidCoordinates (lat lng : JSNum) : Bool :=
  lat.jsGe (.num (-90)) && lat.jsLe (.num 90) &&
    lng.jsGe (.num (-180)) && lng.jsLe (.num 180)

/-- Embedding of `GeolocationUtils.degreesToRadians` over the reals. -/
noncomputable def degreesToRadians (degrees : ℝ) : ℝ :=
  degrees * (Real.pi / 180)

/-- Two-argument arctangent, the mathematical function computed by
JavaScript's `Math.atan2`. -/
noncomputable def atan2 (y x : ℝ) : ℝ :=
  if 0 < x then Real.arctan (y / x)
  else if x < 0 ∧ 0 ≤ y then Real.arctan (y / x) + Real.pi
  else if x < 0 ∧ y < 0 then Real.arctan (y / x) - Real.pi
  else if x = 0 ∧ 0 < y then Real.pi / 2
  else if x = 0 ∧ y < 0 then -(Real.pi / 2)
  else 0

/-- Embedding of `GeolocationUtils.calculateDistance` (the Haversine
formula with Earth radius 6 371 000 m) over the reals. -/
noncomputable def calculateDistance (lat1 lng1 lat2 lng2 : ℝ) : ℝ :=
  let R : ℝ := 6371000
  let dLat := degreesToRadians (lat2 - lat1)
  let dLng := degreesToRadians (lng2 - lng1)
  let a := Real.sin (dLat / 2) * Real.sin (dLat / 2) +
    Real.cos (degreesToRadians lat1) * Real.cos (degreesToRadians lat2) *
      Real.sin (dLng / 2) * Real.sin (dLng / 2)
  let c := 2 * atan2 (Real.sqrt a) (Real.sqrt (1 - a))
  R * c

/-- A sound clip of a story: identifier, audio file reference, centre
coordinate and trigger radius in metres (`src/types`). -/
structure SoundClip where
  id : String
  file : String
  lat : ℚ
  lng : ℚ
  radius : ℚ
deriving DecidableEq, Repr

/-- A story: identifier, title and its list of sound clips
(`src/types`). -/
structure Story where
  id : String
  title : String
  soundClips : List SoundClip
deriving DecidableEq, Repr

/-- A position delivered by the location service
(`Location` in `GeolocationUtils`). -/
structure Position where
  lat : ℚ
  lng : ℚ
deriving DecidableEq, Repr

/-- The options record of `LocationBasedAudioManager`. -/
structure ManagerOptions where
  autoPlay : Bool
  triggerRadiusBuffer : ℚ
  maxConcurrentSounds : ℕ
deriving DecidableEq, Repr

/-- The default options of the manager: `autoPlay: true`,
`triggerRadiusBuffer: 5`, `maxConcurrentSounds: 1`. -/
def defaultOptions : ManagerOptions :=
  { autoPlay := true, triggerRadiusBuffer := 5, maxConcurrentSounds := 1 }

/-- Combined mutable state of `LocationBasedAudioManager` together with
the playback slot of `AudioService` that the manager observes through
`getPlaybackStatus` (`currentSound` holds the id of the clip whose sound
is the audio player's current sound, `none` when nothing is playing). -/
structure ManagerState where
  currentStory : Option Story
  isActive : Bool
  lastTriggeredClips : List String
  hasTriggerCallback : Bool
  options : ManagerOptions
  currentSound : Option String
deriving DecidableEq, Repr

/-- Observable side effects of an engine step, recorded as a trace. -/
inductive Event where
  | addCooldown : String → Event
  | play : String → Event
  | stopSound : Event
  | triggerCallback : String → ℤ → Event
  | scheduleRemoval : String → ℕ → Event
  | subscribe : Event
deriving DecidableEq, Repr

/-- Result object `{ success, error? }` returned by the manager's public
operations. -/
structure OpResult where
  success : Bool
  error : Option String
deriving DecidableEq, Repr

/-- Insertion into a JavaScript `Set` of strings, preserving insertion
order. -/
def setAdd (l : List String) (x : String) : List String :=
  if x ∈ l then l else l ++ [x]

/-- JavaScript `Math.round`: round half towards positive infinity. -/
def jsRound (q : ℚ) : ℤ := ⌊q + 1 / 2⌋

/-- JavaScript `toFixed(1)` on a non-negative number: one decimal digit,
ties rounded up. -/
def toFixed1 (q : ℚ) : String :=
  let n : ℤ := ⌊q * 10 + 1 / 2⌋
  toString (n / 10) ++ "." ++ toString (n % 10)

/-- Embedding of `GeolocationUtils.formatDistance`: metres below 1000 as
a rounded integer with suffix `m`, otherwise kilometres to one decimal
with suffix `km`. -/
def formatDistance (distanceInMeters : ℚ) : String :=
  if distanceInMeters < 1000 then toString (jsRound distanceInMeters) ++ "m"
  else toFixed1 (distanceInMeters / 1000) ++ "km"

section Engine

/- The distance function used by the engine, standing for
`GeolocationUtils.calculateDistance` applied to
`(lat1, lng1, lat2, lng2)`.  All engine-level properties hold for every
such function, so it is abstracted as a parameter. -/
variable (dist : ℚ → ℚ → ℚ → ℚ → ℚ)

/-- Embedding of `GeolocationUtils.isWithinRadius`: distance from the
position to the clip's centre is at most the clip's radius (boundary
inclusive). -/
def isWithinRadius (loc : Position) (clip : SoundClip) : Bool :=
  decide (dist loc.lat loc.lng clip.lat clip.lng ≤ clip.radius)

/-- Embedding of `GeolocationUtils.getClipsInRange`: the clips whose
radius contains the position, in story order. -/
def getClipsInRange (loc : Position) (soundClips : List SoundClip) : List SoundClip :=
  soundClips.filter (fun clip => isWithinRadius dist loc clip)

/-- Embedding of `LocationBasedAudioManager.shouldTriggerClip`: the clip
is within its radius plus the trigger-radius buffer and is not in the
recently-triggered (cooldown) set. -/
def shouldTriggerClip (opts : ManagerOptions) (triggered : List String)
    (clip : SoundClip) (loc : Position) : Bool :=
  let distance := dist loc.lat loc.lng clip.lat clip.lng
  let effectiveRadius := clip.radius + opts.triggerRadiusBuffer
  if distance > effectiveRadius then false
  else if clip.id ∈ triggered then false
  else true

/-- Embedding of `LocationBasedAudioManager.triggerAudioClip`: add the
clip id to the cooldown set, then (when `autoPlay` is set) play the clip
through `AudioService.playSound` — which first stops the current sound if
one is playing — then notify the registered callback with the rounded
distance, and finally schedule removal of the id from the cooldown set
after 10 000 ms. -/
def triggerAudioClip (s : ManagerState) (clip : SoundClip) (loc : Position) :
    ManagerState × List Event :=
  let distance := dist loc.lat loc.lng clip.lat clip.lng
  let s1 := { s with lastTriggeredClips := setAdd s.lastTriggeredClips clip.id }
  let playStep : ManagerState × List Event :=
    if s1.options.autoPlay then
      let stopEvents : List Event :=
        if s1.currentSound.isSome then [Event.stopSound] else []
      ({ s1 with currentSound := some clip.id }, stopEvents ++ [Event.play clip.id])
    else (s1, [])
  let s2 := playStep.1
  let callbackEvents : List Event :=
    if s2.hasTriggerCallback then [Event.triggerCallback clip.id (jsRound distance)]
    else []
  (s2, Event.addCooldown clip.id :: playStep.2 ++ callbackEvents ++
    [Event.scheduleRemoval clip.id 10000])

/-- The `for` loop of `handleLocationUpdate`: each in-range clip is
checked against `shouldTriggerClip` on the current (mutating) state and
triggered when the check passes. -/
def processClips (loc : Position) : List SoundClip → ManagerState →
    ManagerState × List Event
  | [], s => (s, [])
  | clip :: rest, s =>
    if shouldTriggerClip dist s.options s.lastTriggeredClips clip loc then
      let step := triggerAudioClip dist s clip loc
      let tail := processClips loc rest step.1
      (tail.1, step.2 ++ tail.2)
    else processClips loc rest s

/-- Embedding of `LocationBasedAudioManager.handleClipsOutOfRange`: if a
sound is playing and the corresponding clip of the current story is
farther away than its radius plus the trigger-radius buffer, stop the
current sound. -/
def handleClipsOutOfRange (s : ManagerState) (loc : Position) :
    ManagerState × List Event :=
  match s.currentStory with
  | none => (s, [])
  | some story =>
    match s.currentSound with
    | none => (s, [])
    | some soundId =>
      match story.soundClips.find? (fun clip => clip.id == soundId) with
      | none => (s, [])
      | some currentClip =>
        let distance := dist loc.lat loc.lng currentClip.lat currentClip.lng
        if distance > currentClip.radius + s.options.triggerRadiusBuffer then
          ({ s with currentSound := none }, [Event.stopSound])
        else (s, [])

/-- Embedding of `LocationBasedAudioManager.handleLocationUpdate`: no-op
unless a story is loaded and monitoring is active; otherwise trigger every
in-range clip that passes `shouldTriggerClip`, then stop the playing clip
if it fell out of range. -/
def handleLocationUpdate (s : ManagerState) (loc : Position) :
    ManagerState × List Event :=
  match s.currentStory with
  | none => (s, [])
  | some story =>
    if s.isActive then
      let clipsInRange := getClipsInRange dist loc story.soundClips
      let step := processClips dist loc clipsInRange s
      let outStep := handleClipsOutOfRange dist step.1 loc
      (outStep.1, step.2 ++ outStep.2)
    else (s, [])

/-- Embedding of `LocationBasedAudioManager.initializeWithStory`: look up
the story by id in the catalog (`StoryLoader.getStoryById` searches the
loaded story list by id).  The outcomes of the external audio-layer calls
`AudioService.initialize` and `AudioService.loadStorySounds` are supplied
as the booleans `audioInitOk` and `audioLoadOk`.  Only after all three
steps succeed are `currentStory` and the cooldown set assigned. -/
def initWithStory (s : ManagerState) (catalog : List Story) (storyId : String)
    (audioInitOk audioLoadOk : Bool) : ManagerState × OpResult :=
  match catalog.find? (fun story => story.id == storyId) with
  | none => (s, { success := false, error := some ("Story not found: " ++ storyId) })
  | some story =>
    if audioInitOk = false then
      (s, { success := false, error := some "audio init failed" })
    else if audioLoadOk = false then
      (s, { success := false, error := some "audio load failed" })
    else
      ({ s with currentStory := some story, lastTriggeredClips := [] },
        { success := true, error := none })

/-- Embedding of `LocationBasedAudioManager.startMonitoring`: fails
without subscribing when no story is loaded; otherwise the external
permission request, location-settings check and tracking start are
supplied as booleans, and on success the engine subscribes to the
position source, records the callback and sets `isActive`. -/
def startMonitoring (s : ManagerState) (withCallback : Bool)
    (permissionOk settingsOk trackingOk : Bool) :
    ManagerState × List Event × OpResult :=
  match s.currentStory with
  | none =>
    (s, [], { success := false,
              error := some "No story loaded. Call initializeWithStory first." })
  | some _ =>
    if permissionOk = false then
      (s, [], { success := false, error := some "permission denied" })
    else if settingsOk = false then
      (s, [], { success := false, error := some "location services disabled" })
    else if trackingOk = false then
      (s, [], { success := false, error := some "tracking failed" })
    else
      ({ s with isActive := true, hasTriggerCallback := withCallback },
        [Event.subscribe], { success := true, error := none })

/-- Embedding of `LocationBasedAudioManager.triggerClipManually`: fails
when no story is loaded, when the clip id is not found in the current
story, or when the location service has no last-known position; otherwise
delegates to `triggerAudioClip` (no cooldown check). -/
def triggerClipManually (s : ManagerState) (lastKnownLocation : Option Position)
    (clipId : String) : ManagerState × List Event × OpResult :=
  match s.currentStory with
  | none => (s, [], { success := false, error := some "No story loaded" })
  | some story =>
    match story.soundClips.find? (fun c => c.id == clipId) with
    | none =>
      (s, [], { success := false,
                error := some ("Sound clip not found: " ++ clipId) })
    | some clip =>
      match lastKnownLocation with
      | none =>
        (s, [], { success := false, error := some "No location data available" })
      | some currentLocation =>
        let step := triggerAudioClip dist s clip currentLocation
        (step.1, step.2, { success := true, error := none })

/-- One entry of the list returned by `getNearbyClipsInfo`. -/
structure NearbyClipInfo where
  clip : SoundClip
  distance : ℤ
  formattedDistance : String
  isInRange : Bool
deriving DecidableEq, Repr

/-- Ordering used by the sort in `getNearbyClipsInfo`
(comparator `(a, b) => a.distance - b.distance`). -/
def distLE (a b : NearbyClipInfo) : Prop := a.distance ≤ b.distance

instance : DecidableRel distLE :=
  fun a b => inferInstanceAs (Decidable (a.distance ≤ b.distance))

instance : IsTotal NearbyClipInfo distLE := ⟨fun a b => le_total a.distance b.distance⟩

instance : IsTrans NearbyClipInfo distLE := ⟨fun _ _ _ h h' => le_trans h h'⟩

/-- The entry built for one clip by the `map` inside
`getNearbyClipsInfo`. -/
def mkNearbyEntry (loc : Position) (clip : SoundClip) : NearbyClipInfo :=
  let distance := dist loc.lat loc.lng clip.lat clip.lng
  { clip := clip
    distance := jsRound distance
    formattedDistance := formatDistance distance
    isInRange := decide (distance ≤ clip.radius) }

/-- Embedding of `LocationBasedAudioManager.getNearbyClipsInfo`: one
entry per clip of the current story, stably sorted ascending by the
rounded distance; the method reads but never assigns engine state, which
the embedding records by returning the state unchanged. -/
def getNearbyClipsInfo (s : ManagerState) (loc : Position) :
    List NearbyClipInfo × ManagerState :=
  match s.currentStory with
  | none => ([], s)
  | some story =>
    (List.insertionSort distLE (story.soundClips.map (mkNearbyEntry dist loc)), s)

end Engine

/-- Recogniser for callback-invocation events in a trace. -/
def isCallbackEvent : Event → Bool
  | .triggerCallback _ _ => true
  | _ => false

/-- Recogniser for trigger events in a trace: each call of
`triggerAudioClip` records exactly one `addCooldown` event, so these mark
the triggers. -/
def isTriggerEvent : Event → Bool
  | .addCooldown _ => true
  | _ => false

/-- A distance function that returns the same value for every pair of
points, used to instantiate the abstract distance parameter on concrete
inputs. -/
def constDist (q : ℚ) : ℚ → ℚ → ℚ → ℚ → ℚ := fun _ _ _ _ => q

/-- Concrete clip fixture. -/
def clipA : SoundClip :=
  { id := "clip1", file := "clip1.mp3", lat := 1, lng := 2, radius := 100 }

/-- Concrete one-clip story fixture. -/
def storyA : Story :=
  { id := "story1", title := "City Tour", soundClips := [clipA] }

/-- Engine state with `storyA` loaded, monitoring active, a registered
callback, default options, empty cooldown set and nothing playing. -/
def readyState : ManagerState :=
  { currentStory := some storyA, isActive := true, lastTriggeredClips := [],
    hasTriggerCallback := true, options := defaultOptions, currentSound := none }

/-- Concrete position fixture. -/
def posA : Position := { lat := 1, lng := 2 }

/-- State with no story loaded. -/
def noStoryState : ManagerState := { readyState with currentStory := none }

/-- State in which `clipA`'s sound is currently playing. -/
def playingState : ManagerState := { readyState with currentSound := some "clip1" }

/-- State in which `clipA` is in the cooldown set. -/
def cooldownState : ManagerState :=
  { readyState with lastTriggeredClips := ["clip1"] }

/-- Catalog fixture for the story lookup. -/
def catalogA : List Story := [storyA]

/-- Membership is preserved by `setAdd`. -/
theorem mem_setAdd_of_mem {l : List String} {x : String} (y : String)
    (h : x ∈ l) : x ∈ setAdd l y := by
  unfold setAdd
  split
  · exact h
  · exact List.mem_append_left _ h

/-- The added element is in `setAdd`. -/
theorem mem_setAdd_self (l : List String) (y : String) : y ∈ setAdd l y := by
  unfold setAdd
  split
  · assumption
  · exact List.mem_append_right _ (List.mem_singleton.mpr rfl)

/-- A clip that passes `shouldTriggerClip` is not in the cooldown set. -/
theorem shouldTrigger_not_mem {dist : ℚ → ℚ → ℚ → ℚ → ℚ}
    {opts : ManagerOptions} {triggered : List String} {clip : SoundClip}
    {loc : Position} (h : shouldTriggerClip dist opts triggered clip loc = true) :
    clip.id ∉ triggered := by
  intro hmem
  simp [shouldTriggerClip, hmem] at h

/-- State effect of `triggerAudioClip`: the clip id is inserted into the
cooldown set, the other manager fields are untouched, and the playback
slot is set to the clip when `autoPlay` is on. -/
theorem triggerAudioClip_state (dist : ℚ → ℚ → ℚ → ℚ → ℚ) (s : ManagerState)
    (clip : SoundClip) (loc : Position) :
    (triggerAudioClip dist s clip loc).1.lastTriggeredClips =
        setAdd s.lastTriggeredClips clip.id ∧
      (triggerAudioClip dist s clip loc).1.hasTriggerCallback = s.hasTriggerCallback ∧
      (triggerAudioClip dist s clip loc).1.options = s.options ∧
      (triggerAudioClip dist s clip loc).1.currentStory = s.currentStory ∧
      (triggerAudioClip dist s clip loc).1.isActive = s.isActive := by
  by_cases h : s.options.autoPlay <;> simp [triggerAudioClip, h]

/-- Every `play` event recorded by `triggerAudioClip` names the triggered
clip. -/
theorem triggerAudioClip_play_mem {dist : ℚ → ℚ → ℚ → ℚ → ℚ}
    {s : ManagerState} {clip : SoundClip} {loc : Position} {x : String}
    (h : Event.play x ∈ (triggerAudioClip dist s clip loc).2) : x = clip.id := by
  by_cases h1 : s.options.autoPlay <;> by_cases h2 : s.currentSound.isSome <;>
    by_cases h3 : s.hasTriggerCallback <;>
    simp [triggerAudioClip, h1, h2, h3] at h <;> tauto

/-- Every `addCooldown` event recorded by `triggerAudioClip` names the
triggered clip. -/
theorem triggerAudioClip_addCooldown_mem {dist : ℚ → ℚ → ℚ → ℚ → ℚ}
    {s : ManagerState} {clip : SoundClip} {loc : Position} {x : String}
    (h : Event.addCooldown x ∈ (triggerAudioClip dist s clip loc).2) :
    x = clip.id := by
  by_cases h1 : s.options.autoPlay <;> by_cases h2 : s.currentSound.isSome <;>
    by_cases h3 : s.hasTriggerCallback <;>
    simp [triggerAudioClip, h1, h2, h3] at h <;> tauto

/-- Trace shape of `triggerAudioClip`: the cooldown insertion is recorded
first, the playback call (when `autoPlay` is on) and the scheduled
cooldown removal follow it. -/
theorem triggerAudioClip_trace (dist : ℚ → ℚ → ℚ → ℚ → ℚ) (s : ManagerState)
    (clip : SoundClip) (loc : Position) :
    ∃ tail, (triggerAudioClip dist s clip loc).2 =
        Event.addCooldown clip.id :: tail ∧
      (s.options.autoPlay = true → Event.play clip.id ∈ tail) ∧
      Event.scheduleRemoval clip.id 10000 ∈ tail := by
  by_cases h1 : s.options.autoPlay <;> by_cases h2 : s.currentSound.isSome <;>
    by_cases h3 : s.hasTriggerCallback <;>
    simp [triggerAudioClip, h1, h2, h3]

/-- Callback-event count of one `triggerAudioClip` call. -/
theorem triggerAudioClip_countCb (dist : ℚ → ℚ → ℚ → ℚ → ℚ) (s : ManagerState)
    (clip : SoundClip) (loc : Position) :
    (triggerAudioClip dist s clip loc).2.countP isCallbackEvent =
      if s.hasTriggerCallback then 1 else 0 := by
  by_cases h1 : s.options.autoPlay <;> by_cases h2 : s.currentSound.isSome <;>
    by_cases h3 : s.hasTriggerCallback <;>
    simp [triggerAudioClip, h1, h2, h3, isCallbackEvent]

/-- Trigger-event count of one `triggerAudioClip` call. -/
theorem triggerAudioClip_countTrig (dist : ℚ → ℚ → ℚ → ℚ → ℚ) (s : ManagerState)
    (clip : SoundClip) (loc : Position) :
    (triggerAudioClip dist s clip loc).2.countP isTriggerEvent = 1 := by
  by_cases h1 : s.options.autoPlay <;> by_cases h2 : s.currentSound.isSome <;>
    by_cases h3 : s.hasTriggerCallback <;>
    simp [triggerAudioClip, h1, h2, h3, isTriggerEvent]

/-- The per-update clip loop leaves the callback registration, options,
story and monitoring flag untouched. -/
theorem processClips_fields (dist : ℚ → ℚ → ℚ → ℚ → ℚ) (loc : Position) :
    ∀ (l : List SoundClip) (s : ManagerState),
      (processClips dist loc l s).1.hasTriggerCallback = s.hasTriggerCallback ∧
        (processClips dist loc l s).1.options = s.options ∧
        (processClips dist loc l s).1.currentStory = s.currentStory ∧
        (processClips dist loc l s).1.isActive = s.isActive
  | [], s => by simp [processClips]
  | clip :: rest, s => by
    by_cases h : shouldTriggerClip dist s.options s.lastTriggeredClips clip loc
    · have hstep := triggerAudioClip_state dist s clip loc
      have ih := processClips_fields dist loc rest (triggerAudioClip dist s clip loc).1
      simp only [processClips, h, if_true]
      exact ⟨ih.1.trans hstep.2.1, ih.2.1.trans hstep.2.2.1,
        ih.2.2.1.trans hstep.2.2.2.1, ih.2.2.2.trans hstep.2.2.2.2⟩
    · simpa [processClips, h] using processClips_fields dist loc rest s

/-- A clip id that is in the cooldown set when the clip loop starts stays
in it, is never played during the loop, and is never re-added to the
cooldown set (i.e. never re-triggered). -/
theorem processClips_triggered (dist : ℚ → ℚ → ℚ → ℚ → ℚ) (loc : Position) :
    ∀ (l : List SoundClip) (s : ManagerState) (x : String),
      x ∈ s.lastTriggeredClips →
      x ∈ (processClips dist loc l s).1.lastTriggeredClips ∧
        Event.play x ∉ (processClips dist loc l s).2 ∧
        Event.addCooldown x ∉ (processClips dist loc l s).2
  | [], s, x => by simp [processClips]
  | clip :: rest, s, x => by
    intro hx
    by_cases h : shouldTriggerClip dist s.options s.lastTriggeredClips clip loc
    · have hne : x ≠ clip.id := by
        intro he
        exact shouldTrigger_not_mem h (he ▸ hx)
      have hstep := triggerAudioClip_state dist s clip loc
      have hx1 : x ∈ (triggerAudioClip dist s clip loc).1.lastTriggeredClips := by
        rw [hstep.1]
        exact mem_setAdd_of_mem clip.id hx
      have ih := processClips_triggered dist loc rest (triggerAudioClip dist s clip loc).1 x hx1
      simp only [processClips, h, if_true, List.mem_append]
      refine ⟨ih.1, ?_, ?_⟩
      · rintro (hmem | hmem)
        · exact hne (triggerAudioClip_play_mem hmem)
        · exact ih.2.1 hmem
      · rintro (hmem | hmem)
        · exact hne (triggerAudioClip_addCooldown_mem hmem)
        · exact ih.2.2 hmem
    · simpa [processClips, h] using processClips_triggered dist loc rest s x hx

/-- During the clip loop the callback fires exactly once per trigger when
a callback is registered, and never otherwise. -/
theorem processClips_counts (dist : ℚ → ℚ → ℚ → ℚ → ℚ) (loc : Position) :
    ∀ (l : List SoundClip) (s : ManagerState),
      (processClips dist loc l s).2.countP isCallbackEvent =
        if s.hasTriggerCallback then
          (processClips dist loc l s).2.countP isTriggerEvent
        else 0
  | [], s => by simp [processClips]
  | clip :: rest, s => by
    by_cases h : shouldTriggerClip dist s.options s.lastTriggeredClips clip loc
    · have hstep := triggerAudioClip_state dist s clip loc
      have ih := processClips_counts dist loc rest (triggerAudioClip dist s clip loc).1
      rw [hstep.2.1] at ih
      have hcb := triggerAudioClip_countCb dist s clip loc
      have htr := triggerAudioClip_countTrig dist s clip loc
      simp only [processClips, h, if_true, List.countP_append]
      rw [hcb, htr, ih]
      by_cases hc : s.hasTriggerCallback <;> simp [hc]
    · simpa [processClips, h] using processClips_counts dist loc rest s

/-- The out-of-range check never touches the cooldown set or callback
registration and records at most a `stopSound` event. -/
theorem handleClipsOutOfRange_shape (dist : ℚ → ℚ → ℚ → ℚ → ℚ)
    (s : ManagerState) (loc : Position) :
    (handleClipsOutOfRange dist s loc).1.lastTriggeredClips = s.lastTriggeredClips ∧
      (handleClipsOutOfRange dist s loc).1.hasTriggerCallback = s.hasTriggerCallback ∧
      ∀ e ∈ (handleClipsOutOfRange dist s loc).2, e = Event.stopSound := by
  unfold handleClipsOutOfRange
  cases hcs : s.currentStory with
  | none => simp [hcs]
  | some story =>
    cases hsnd : s.currentSound with
    | none => simp [hcs, hsnd]
    | some soundId =>
      cases hf : story.soundClips.find? (fun clip => clip.id == soundId) with
      | none => simp [hcs, hsnd, hf]
      | some currentClip =>
        simp only [hcs, hsnd, hf]
        split <;> simp

/-- A position update with no story loaded or with monitoring inactive is
a complete no-op: the state is unchanged and no event is recorded. -/
theorem handleLocationUpdate_noop (dist : ℚ → ℚ → ℚ → ℚ → ℚ)
    (s : ManagerState) (loc : Position)
    (h : s.currentStory = none ∨ s.isActive = false) :
    handleLocationUpdate dist s loc = (s, []) := by
  rcases h with h | h
  · simp [handleLocationUpdate, h]
  · cases hcs : s.currentStory with
    | none => simp [handleLocationUpdate, hcs]
    | some story => simp [handleLocationUpdate, hcs, h]

/-- Decomposition of an active position update into the clip loop
followed by the out-of-range check. -/
theorem handleLocationUpdate_active (dist : ℚ → ℚ → ℚ → ℚ → ℚ)
    (s : ManagerState) (loc : Position) (story : Story)
    (hs : s.currentStory = some story) (ha : s.isActive = true) :
    handleLocationUpdate dist s loc =
      ((handleClipsOutOfRange dist
          (processClips dist loc (getClipsInRange dist loc story.soundClips) s).1
          loc).1,
        (processClips dist loc (getClipsInRange dist loc story.soundClips) s).2 ++
          (handleClipsOutOfRange dist
            (processClips dist loc (getClipsInRange dist loc story.soundClips) s).1
            loc).2) := by
  simp [handleLocationUpdate, hs, ha]

/-- An id that is in the cooldown set when a position update arrives is
never played or re-triggered by that update, and it stays in the set. -/
theorem mem_cooldown_no_retrigger (dist : ℚ → ℚ → ℚ → ℚ → ℚ)
    (s : ManagerState) (loc : Position) (x : String)
    (h : x ∈ s.lastTriggeredClips) :
    Event.play x ∉ (handleLocationUpdate dist s loc).2 ∧
    Event.addCooldown x ∉ (handleLocationUpdate dist s loc).2 ∧
    x ∈ (handleLocationUpdate dist s loc).1.lastTriggeredClips := by
  cases hcs : s.currentStory with
  | none =>
    rw [handleLocationUpdate_noop dist s loc (Or.inl hcs)]
    simpa using h
  | some story =>
    by_cases ha : s.isActive = true
    · rw [handleLocationUpdate_active dist s loc story hcs ha]
      obtain ⟨hmem, hplay, hadd⟩ := processClips_triggered dist loc
        (getClipsInRange dist loc story.soundClips) s x h
      obtain ⟨hset, _, hstop⟩ := handleClipsOutOfRange_shape dist
        (processClips dist loc (getClipsInRange dist loc story.soundClips) s).1 loc
      refine ⟨?_, ?_, ?_⟩
      · simp only [List.mem_append]
        rintro (hm | hm)
        · exact hplay hm
        · exact absurd (hstop _ hm) (by simp)
      · simp only [List.mem_append]
        rintro (hm | hm)
        · exact hadd hm
        · exact absurd (hstop _ hm) (by simp)
      · rw [hset]
        exact hmem
    · rw [handleLocationUpdate_noop dist s loc (Or.inr (by simpa using ha))]
      simpa using h

/-- C1: a clip whose id is in the cooldown set is never triggered again
by a position update: on a trigger the id is recorded in the cooldown set
before the playback call (the `addCooldown` event heads the trace, the
`play` call follows it) and its removal is scheduled 10 seconds
(10 000 ms) later; while the id is in the set, a position update neither
plays that clip again nor re-triggers it, and the id stays in the set. -/
theorem cooldown_suppresses_retrigger (dist : ℚ → ℚ → ℚ → ℚ → ℚ)
    (s : ManagerState) (loc : Position) (clip : SoundClip)
    (h : clip.id ∈ s.lastTriggeredClips) :
    (∃ tail, (triggerAudioClip dist s clip loc).2 =
        Event.addCooldown clip.id :: tail ∧
      (s.options.autoPlay = true → Event.play clip.id ∈ tail) ∧
      Event.scheduleRemoval clip.id 10000 ∈ tail) ∧
    Event.play clip.id ∉ (handleLocationUpdate dist s loc).2 ∧
    Event.addCooldown clip.id ∉ (handleLocationUpdate dist s loc).2 ∧
    clip.id ∈ (handleLocationUpdate dist s loc).1.lastTriggeredClips :=
  ⟨triggerAudioClip_trace dist s clip loc,
    mem_cooldown_no_retrigger dist s loc clip.id h⟩

/-- Witness for C1 at a concrete input: `clipA` is within range
(distance 50, radius 100) but already in the cooldown set, so the update
does not play it again. -/
theorem cooldown_suppresses_retrigger_witness :
    (∃ tail, (triggerAudioClip (constDist 50) cooldownState clipA posA).2 =
        Event.addCooldown clipA.id :: tail ∧
      (cooldownState.options.autoPlay = true → Event.play clipA.id ∈ tail) ∧
      Event.scheduleRemoval clipA.id 10000 ∈ tail) ∧
    Event.play clipA.id ∉ (handleLocationUpdate (constDist 50) cooldownState posA).2 ∧
    Event.addCooldown clipA.id ∉
      (handleLocationUpdate (constDist 50) cooldownState posA).2 ∧
    clipA.id ∈
      (handleLocationUpdate (constDist 50) cooldownState posA).1.lastTriggeredClips :=
  cooldown_suppresses_retrigger (constDist 50) cooldownState posA clipA (by decide)

/-- Counterexample to C2 as stated: `clipA` (radius 100) is playing and
the update is at distance 103 from its centre — strictly beyond the
nominal radius — yet the engine records no `stopSound` event and leaves
the playback slot untouched, because the exit check uses
`radius + triggerRadiusBuffer` (100 + 5) rather than the nominal
radius. -/
theorem exit_uses_buffer_counterexample :
    playingState.currentSound = some clipA.id ∧
    constDist 103 posA.lat posA.lng clipA.lat clipA.lng > clipA.radius ∧
    handleClipsOutOfRange (constDist 103) playingState posA =
      (playingState, []) ∧
    handleLocationUpdate (constDist 103) playingState posA =
      (playingState, []) := by
  have hstory : playingState.currentStory = some storyA := rfl
  have hsound : playingState.currentSound = some "clip1" := rfl
  have hfind : storyA.soundClips.find? (fun c => c.id == "clip1") = some clipA := rfl
  have hout : handleClipsOutOfRange (constDist 103) playingState posA =
      (playingState, []) := by
    unfold handleClipsOutOfRange
    simp only [hstory, hsound, hfind]
    rw [if_neg]
    norm_num [constDist, clipA, playingState, readyState, defaultOptions]
  have hw : isWithinRadius (constDist 103) posA clipA = false :=
    decide_eq_false (by norm_num [constDist, clipA])
  have hrange : getClipsInRange (constDist 103) posA storyA.soundClips = [] := by
    simp [getClipsInRange, storyA, hw]
  refine ⟨rfl, by norm_num [constDist, clipA], hout, ?_⟩
  rw [handleLocationUpdate_active (constDist 103) playingState posA storyA rfl rfl,
    hrange]
  simpa [processClips] using hout

/-- C2 amended: while a clip is playing, a position update stops the
audio player and clears the playback slot exactly when the distance to
that clip's centre strictly exceeds the clip's radius plus the
`triggerRadiusBuffer` option (5 m by default) — the same buffer applied
at entry by `shouldTriggerClip`. -/
theorem stop_on_exit_beyond_buffer (dist : ℚ → ℚ → ℚ → ℚ → ℚ)
    (s : ManagerState) (loc : Position) (story : Story) (clip : SoundClip)
    (hstory : s.currentStory = some story)
    (hsound : s.currentSound = some clip.id)
    (hfind : story.soundClips.find? (fun c => c.id == clip.id) = some clip)
    (hdist : dist loc.lat loc.lng clip.lat clip.lng >
      clip.radius + s.options.triggerRadiusBuffer) :
    handleClipsOutOfRange dist s loc =
      ({ s with currentSound := none }, [Event.stopSound]) := by
  unfold handleClipsOutOfRange
  simp only [hstory, hsound, hfind]
  rw [if_pos hdist]

/-- Witness for the amended C2 at a concrete input: `clipA` is playing
and the update is at distance 200 > 100 + 5, so the sound is stopped. -/
theorem stop_on_exit_beyond_buffer_witness :
    handleClipsOutOfRange (constDist 200) playingState posA =
      ({ playingState with currentSound := none }, [Event.stopSound]) :=
  stop_on_exit_beyond_buffer (constDist 200) playingState posA storyA clipA
    rfl rfl rfl
    (by norm_num [constDist, clipA, playingState, readyState, defaultOptions])

/-- Counterexample to C3 as stated: with a callback registered, a
processed position update that triggers nothing (the only clip is 1000 m
away, radius 100) invokes the callback zero times — not once — and a
no-op update (no story loaded) also invokes it zero times. -/
theorem callback_not_invoked_without_trigger :
    readyState.hasTriggerCallback = true ∧
    handleLocationUpdate (constDist 1000) readyState posA = (readyState, []) ∧
    noStoryState.hasTriggerCallback = true ∧
    handleLocationUpdate (constDist 1000) noStoryState posA =
      (noStoryState, []) := by
  have hw : isWithinRadius (constDist 1000) posA clipA = false :=
    decide_eq_false (by norm_num [constDist, clipA])
  have hrange : getClipsInRange (constDist 1000) posA storyA.soundClips = [] := by
    simp [getClipsInRange, storyA, hw]
  refine ⟨rfl, ?_, rfl, handleLocationUpdate_noop _ _ _ (Or.inl rfl)⟩
  rw [handleLocationUpdate_active (constDist 1000) readyState posA storyA rfl rfl,
    hrange]
  simp [processClips, handleClipsOutOfRange, readyState]

/-- C3 amended: the callback supplied to `startMonitoring` is invoked
exactly once per trigger event and never otherwise — a processed update
that triggers nothing invokes it zero times, and a no-op update (no story
loaded or monitoring inactive) changes nothing and invokes nothing. -/
theorem callback_once_per_trigger (dist : ℚ → ℚ → ℚ → ℚ → ℚ)
    (s : ManagerState) (loc : Position) :
    ((handleLocationUpdate dist s loc).2.countP isCallbackEvent =
      if s.hasTriggerCallback then
        (handleLocationUpdate dist s loc).2.countP isTriggerEvent
      else 0) ∧
    ((s.currentStory = none ∨ s.isActive = false) →
      handleLocationUpdate dist s loc = (s, [])) := by
  refine ⟨?_, handleLocationUpdate_noop dist s loc⟩
  cases hcs : s.currentStory with
  | none =>
    rw [handleLocationUpdate_noop dist s loc (Or.inl hcs)]
    simp
  | some story =>
    by_cases ha : s.isActive = true
    · rw [handleLocationUpdate_active dist s loc story hcs ha]
      obtain ⟨_, _, hstop⟩ := handleClipsOutOfRange_shape dist
        (processClips dist loc (getClipsInRange dist loc story.soundClips) s).1 loc
      have hout_cb : (handleClipsOutOfRange dist
          (processClips dist loc (getClipsInRange dist loc story.soundClips) s).1
          loc).2.countP isCallbackEvent = 0 := by
        rw [List.countP_eq_zero]
        intro e he
        rw [hstop e he]
        simp [isCallbackEvent]
      have hout_trig : (handleClipsOutOfRange dist
          (processClips dist loc (getClipsInRange dist loc story.soundClips) s).1
          loc).2.countP isTriggerEvent = 0 := by
        rw [List.countP_eq_zero]
        intro e he
        rw [hstop e he]
        simp [isTriggerEvent]
      simp only [List.countP_append, hout_cb, hout_trig, Nat.add_zero]
      exact processClips_counts dist loc (getClipsInRange dist loc story.soundClips) s
    · rw [handleLocationUpdate_noop dist s loc (Or.inr (by simpa using ha))]
      simp

/-- Witness for the amended C3 at a concrete input: an update with no
story loaded leaves the state unchanged and records no event at all. -/
theorem callback_once_per_trigger_witness :
    handleLocationUpdate (constDist 50) noStoryState posA = (noStoryState, []) :=
  (callback_once_per_trigger (constDist 50) noStoryState posA).2 (Or.inl rfl)

/-- C4: with no story loaded, `startMonitoring` fails with the
no-story-loaded error, records no subscription to the position source,
and leaves the whole engine state (monitoring flag, cooldown set,
callback registration) unchanged. -/
theorem startMonitoring_requires_story (s : ManagerState) (withCallback : Bool)
    (permissionOk settingsOk trackingOk : Bool)
    (h : s.currentStory = none) :
    startMonitoring s withCallback permissionOk settingsOk trackingOk =
      (s, [], { success := false,
                error := some "No story loaded. Call initializeWithStory first." }) := by
  unfold startMonitoring
  rw [h]

/-- Witness for C4 at a concrete input. -/
theorem startMonitoring_requires_story_witness :
    startMonitoring noStoryState true true true true =
      (noStoryState, [],
        { success := false,
          error := some "No story loaded. Call initializeWithStory first." }) :=
  startMonitoring_requires_story noStoryState true true true true rfl

/-- C5: manual triggering fails with the no-story error when no story is
set, with the clip-not-found error (recording no audio-player event) when
the id is not in the current story, and with the no-location error when
the position source has no last-known position; when everything is
present (and `autoPlay` is on, its default) it succeeds and plays the
clip.  No conjunct constrains the cooldown set, so a successful manual
trigger is never suppressed by it. -/
theorem triggerClipManually_contract (dist : ℚ → ℚ → ℚ → ℚ → ℚ)
    (s : ManagerState) (lastKnown : Option Position) (clipId : String) :
    (s.currentStory = none →
      triggerClipManually dist s lastKnown clipId =
        (s, [], { success := false, error := some "No story loaded" })) ∧
    (∀ story, s.currentStory = some story →
      story.soundClips.find? (fun c => c.id == clipId) = none →
      triggerClipManually dist s lastKnown clipId =
        (s, [], { success := false,
                  error := some ("Sound clip not found: " ++ clipId) })) ∧
    (∀ story clip, s.currentStory = some story →
      story.soundClips.find? (fun c => c.id == clipId) = some clip →
      lastKnown = none →
      triggerClipManually dist s lastKnown clipId =
        (s, [], { success := false, error := some "No location data available" })) ∧
    (∀ story clip loc, s.currentStory = some story →
      story.soundClips.find? (fun c => c.id == clipId) = some clip →
      lastKnown = some loc → s.options.autoPlay = true →
      (triggerClipManually dist s lastKnown clipId).2.2.success = true ∧
        Event.play clip.id ∈ (triggerClipManually dist s lastKnown clipId).2.1) := by
  refine ⟨?_, ?_, ?_, ?_⟩
  · intro h
    simp [triggerClipManually, h]
  · intro story hs hfind
    simp [triggerClipManually, hs, hfind]
  · intro story clip hs hfind hlk
    simp [triggerClipManually, hs, hfind, hlk]
  · intro story clip loc hs hfind hlk hap
    obtain ⟨tail, htrace, hplay, _⟩ := triggerAudioClip_trace dist s clip loc
    simp only [triggerClipManually, hs, hfind, hlk]
    exact ⟨trivial, htrace ▸ List.mem_cons_of_mem _ (hplay hap)⟩

/-- Witness for C5 at a concrete input: the success branch, with the
requested clip already in the cooldown set, showing that a manual trigger
is not suppressed by the cooldown. -/
theorem triggerClipManually_contract_witness :
    (triggerClipManually (constDist 50) cooldownState (some posA) "clip1").2.2.success =
        true ∧
      Event.play clipA.id ∈
        (triggerClipManually (constDist 50) cooldownState (some posA) "clip1").2.1 :=
  (triggerClipManually_contract (constDist 50) cooldownState (some posA)
    "clip1").2.2.2 storyA clipA posA rfl rfl rfl rfl

/-- C6: story selection looks the story up in the catalog; a failed
lookup (and any audio-layer failure) returns a failure with the engine
state exactly as before, and a fully successful call replaces
`currentStory` and clears the cooldown set. -/
theorem initWithStory_contract (s : ManagerState) (catalog : List Story)
    (storyId : String) (audioInitOk audioLoadOk : Bool) :
    (catalog.find? (fun story => story.id == storyId) = none →
      initWithStory s catalog storyId audioInitOk audioLoadOk =
        (s, { success := false, error := some ("Story not found: " ++ storyId) })) ∧
    (∀ story, catalog.find? (fun story => story.id == storyId) = some story →
      audioInitOk = true → audioLoadOk = true →
      initWithStory s catalog storyId audioInitOk audioLoadOk =
        ({ s with currentStory := some story, lastTriggeredClips := [] },
          { success := true, error := none })) ∧
    ((initWithStory s catalog storyId audioInitOk audioLoadOk).2.success = false →
      (initWithStory s catalog storyId audioInitOk audioLoadOk).1 = s) := by
  refine ⟨?_, ?_, ?_⟩
  · intro h
    simp [initWithStory, h]
  · intro story hfind hinit hload
    simp [initWithStory, hfind, hinit, hload]
  · intro hfail
    cases hfind : catalog.find? (fun story => story.id == storyId) with
    | none => simp [initWithStory, hfind]
    | some story =>
      by_cases hinit : audioInitOk = false
      · simp [initWithStory, hfind, hinit]
      · by_cases hload : audioLoadOk = false
        · simp [initWithStory, hfind, hinit, hload]
        · rw [initWithStory] at hfail
          simp [hfind, hinit, hload] at hfail

/-- Witness for C6 at a concrete input: the fully successful branch. -/
theorem initWithStory_contract_witness :
    initWithStory noStoryState catalogA "story1" true true =
      ({ noStoryState with currentStory := some storyA, lastTriggeredClips := [] },
        { success := true, error := none }) :=
  (initWithStory_contract noStoryState catalogA "story1" true true).2.1 storyA
    rfl rfl rfl

/-- C7: with a story loaded, `getNearbyClipsInfo` returns exactly one
entry per clip of the story (a permutation of the per-clip map), sorted
ascending by the entry's distance field, with `isInRange` true exactly
when the distance to the clip is at most its radius, and the engine state
is returned unchanged. -/
theorem getNearbyClipsInfo_spec (dist : ℚ → ℚ → ℚ → ℚ → ℚ)
    (s : ManagerState) (loc : Position) (story : Story)
    (h : s.currentStory = some story) :
    ((getNearbyClipsInfo dist s loc).1).Perm
        (story.soundClips.map (mkNearbyEntry dist loc)) ∧
      List.Sorted distLE (getNearbyClipsInfo dist s loc).1 ∧
      (∀ e ∈ (getNearbyClipsInfo dist s loc).1,
        e.isInRange = true ↔
          dist loc.lat loc.lng e.clip.lat e.clip.lng ≤ e.clip.radius) ∧
      (getNearbyClipsInfo dist s loc).2 = s := by
  simp only [getNearbyClipsInfo, h]
  refine ⟨List.perm_insertionSort distLE _, List.sorted_insertionSort distLE _,
    ?_, trivial⟩
  intro e he
  have hmem : e ∈ story.soundClips.map (mkNearbyEntry dist loc) :=
    (List.perm_insertionSort distLE _).mem_iff.mp he
  obtain ⟨c, _, rfl⟩ := List.mem_map.mp hmem
  simp [mkNearbyEntry]

/-- Witness for C7 at a concrete input. -/
theorem getNearbyClipsInfo_spec_witness :
    ((getNearbyClipsInfo (constDist 50) readyState posA).1).Perm
        (storyA.soundClips.map (mkNearbyEntry (constDist 50) posA)) ∧
      List.Sorted distLE (getNearbyClipsInfo (constDist 50) readyState posA).1 ∧
      (∀ e ∈ (getNearbyClipsInfo (constDist 50) readyState posA).1,
        e.isInRange = true ↔
          constDist 50 posA.lat posA.lng e.clip.lat e.clip.lng ≤ e.clip.radius) ∧
      (getNearbyClipsInfo (constDist 50) readyState posA).2 = readyState :=
  getNearbyClipsInfo_spec (constDist 50) readyState posA storyA rfl

/-- C10: a successful manual trigger puts the clip id into the cooldown
set, and it does so before the playback call (the `addCooldown` event
heads the trace, with the cooldown removal scheduled 10 000 ms later), so
subsequent position updates neither play nor re-trigger that clip while
the id remains in the set. -/
theorem manualTrigger_enters_cooldown (dist : ℚ → ℚ → ℚ → ℚ → ℚ)
    (s : ManagerState) (lastKnown : Option Position) (clipId : String)
    (h : (triggerClipManually dist s lastKnown clipId).2.2.success = true) :
    clipId ∈ (triggerClipManually dist s lastKnown clipId).1.lastTriggeredClips ∧
      (triggerClipManually dist s lastKnown clipId).2.1.head? =
        some (Event.addCooldown clipId) ∧
      Event.scheduleRemoval clipId 10000 ∈
        (triggerClipManually dist s lastKnown clipId).2.1 ∧
      ∀ loc,
        Event.play clipId ∉
            (handleLocationUpdate dist
              (triggerClipManually dist s lastKnown clipId).1 loc).2 ∧
          Event.addCooldown clipId ∉
            (handleLocationUpdate dist
              (triggerClipManually dist s lastKnown clipId).1 loc).2 := by
  cases hs : s.currentStory with
  | none => simp [triggerClipManually, hs] at h
  | some story =>
    cases hfind : story.soundClips.find? (fun c => c.id == clipId) with
    | none => simp [triggerClipManually, hs, hfind] at h
    | some clip =>
      cases hlk : lastKnown with
      | none => simp [triggerClipManually, hs, hfind, hlk] at h
      | some loc0 =>
        subst hlk
        have hid : clip.id = clipId := by
          have := List.find?_some hfind
          simpa using this
        have heq : triggerClipManually dist s (some loc0) clipId =
            ((triggerAudioClip dist s clip loc0).1,
              (triggerAudioClip dist s clip loc0).2,
              { success := true, error := none }) := by
          simp [triggerClipManually, hs, hfind]
        obtain ⟨tail, htrace, _, hsched⟩ := triggerAudioClip_trace dist s clip loc0
        have hmem : clipId ∈ (triggerAudioClip dist s clip loc0).1.lastTriggeredClips := by
          rw [(triggerAudioClip_state dist s clip loc0).1, ← hid]
          exact mem_setAdd_self _ _
        rw [heq]
        refine ⟨hmem, ?_, ?_, ?_⟩
        · rw [htrace, hid]
          rfl
        · rw [htrace, hid]
          exact List.mem_cons_of_mem _ (hid ▸ hsched)
        · intro loc
          have := mem_cooldown_no_retrigger dist
            (triggerAudioClip dist s clip loc0).1 loc clipId hmem
          exact ⟨this.1, this.2.1⟩

/-- Witness for C10 at a concrete input: a manual trigger of `clipA`
(which even sits in the cooldown set already) succeeds and suppresses
subsequent automatic triggering. -/
theorem manualTrigger_enters_cooldown_witness :
    "clip1" ∈
        (triggerClipManually (constDist 50) cooldownState (some posA)
          "clip1").1.lastTriggeredClips ∧
      (triggerClipManually (constDist 50) cooldownState (some posA)
          "clip1").2.1.head? = some (Event.addCooldown "clip1") ∧
      Event.scheduleRemoval "clip1" 10000 ∈
        (triggerClipManually (constDist 50) cooldownState (some posA) "clip1").2.1 ∧
      ∀ loc,
        Event.play "clip1" ∉
            (handleLocationUpdate (constDist 50)
              (triggerClipManually (constDist 50) cooldownState (some posA)
                "clip1").1 loc).2 ∧
          Event.addCooldown "clip1" ∉
            (handleLocationUpdate (constDist 50)
              (triggerClipManually (constDist 50) cooldownState (some posA)
                "clip1").1 loc).2 :=
  manualTrigger_enters_cooldown (constDist 50) cooldownState (some posA) "clip1" rfl

/-- C8: `isValidCoordinates` returns true exactly when both arguments
are finite numbers in range (latitude in [-90, 90], longitude in
[-180, 180]); `NaN`, the infinities and out-of-range values all yield
false.  In particular `isValidCoordinates 91 0 = false` and
`isValidCoordinates 90 180 = true`. -/
theorem isValidCoordinates_spec :
    (∀ lat lng : JSNum, isValidCoordinates lat lng = true ↔
      ∃ a b : ℚ, lat = JSNum.num a ∧ lng = JSNum.num b ∧
        -90 ≤ a ∧ a ≤ 90 ∧ -180 ≤ b ∧ b ≤ 180) ∧
    isValidCoordinates (JSNum.num 91) (JSNum.num 0) = false ∧
    isValidCoordinates (JSNum.num 90) (JSNum.num 180) = true := by
  refine ⟨?_, ?_, ?_⟩
  · intro lat lng
    cases lat <;> cases lng <;>
      simp [isValidCoordinates, JSNum.jsGe, JSNum.jsLe, and_assoc]
  · simp [isValidCoordinates, JSNum.jsGe, JSNum.jsLe]
    norm_num
  · simp [isValidCoordinates, JSNum.jsGe, JSNum.jsLe]

/-- Witness for C8 at concrete inputs, applying the characterisation to
the in-range corner point (90, 180). -/
theorem isValidCoordinates_spec_witness :
    isValidCoordinates (JSNum.num 90) (JSNum.num 180) = true :=
  (isValidCoordinates_spec.1 (JSNum.num 90) (JSNum.num 180)).mpr
    ⟨90, 180, rfl, rfl, by norm_num, by norm_num, by norm_num, by norm_num⟩

/-- Squared sine of the half of a degree difference is symmetric in the
two endpoints. -/
theorem sin_half_deg_sq_symm (x y : ℝ) :
    Real.sin (degreesToRadians (x - y) / 2) *
        Real.sin (degreesToRadians (x - y) / 2) =
      Real.sin (degreesToRadians (y - x) / 2) *
        Real.sin (degreesToRadians (y - x) / 2) := by
  have h : degreesToRadians (x - y) / 2 = -(degreesToRadians (y - x) / 2) := by
    unfold degreesToRadians
    ring
  rw [h, Real.sin_neg]
  ring

/-- Left-multiplied variant of `sin_half_deg_sq_symm`, matching the
association produced by the Haversine formula's cosine factors. -/
theorem mul_sin_half_deg_sq_symm (c x y : ℝ) :
    c * Real.sin (degreesToRadians (x - y) / 2) *
        Real.sin (degreesToRadians (x - y) / 2) =
      c * Real.sin (degreesToRadians (y - x) / 2) *
        Real.sin (degreesToRadians (y - x) / 2) := by
  rw [mul_assoc, mul_assoc, sin_half_deg_sq_symm]

/-- C9: the Haversine distance of a point to itself is zero, and the
distance function is symmetric in its two coordinate pairs. -/
theorem calculateDistance_zero_and_symm :
    (∀ lat lng : ℝ, calculateDistance lat lng lat lng = 0) ∧
    (∀ lat1 lng1 lat2 lng2 : ℝ,
      calculateDistance lat1 lng1 lat2 lng2 =
        calculateDistance lat2 lng2 lat1 lng1) := by
  constructor
  · intro lat lng
    simp [calculateDistance, degreesToRadians, atan2, Real.arctan_zero]
  · intro lat1 lng1 lat2 lng2
    simp only [calculateDistance]
    rw [sin_half_deg_sq_symm lat2 lat1,
      mul_sin_half_deg_sq_symm
        (Real.cos (degreesToRadians lat1) * Real.cos (degreesToRadians lat2))
        lng2 lng1,
      mul_comm (Real.cos (degreesToRadians lat1)) (Real.cos (degreesToRadians lat2))]

end SoundWalk
